import Mathlib

/-!
Shallow embedding of `src/weather-analysis-script.py`.

The script is linear: it optionally installs packages (when `pandas` is not
importable), obtains a bearer token from the `coder` CLI helper, and — when the
token is truthy — builds a BigQuery client, runs one fixed query, prints a
summary of the resulting dataframe and renders charts.  We model the external
world by an `Env` (outcome of each external effect) and the script by a
function producing the list of observable events together with a termination
result (normal end, or an uncaught Python exception).
-/

namespace Weather

/-- Outcome of launching an external process via `subprocess.run(..., check=True)`:
exit status 0 with captured stdout, a non-zero exit (Python raises
`CalledProcessError`), or a failure to launch at all (`FileNotFoundError`/`OSError`). -/
inductive SubprocOutcome where
  | success (stdout : String)
  | calledProcessError (msg : String)
  | osError (msg : String)
  deriving DecidableEq, Repr

/-- The in-memory table produced by `client.query(query).to_dataframe()` at the
granularity the script observes: its column names and its number of rows. -/
structure DataFrame where
  columns : List String
  nrows : Nat
  deriving DecidableEq, Repr

/-- Uncaught Python exceptions that can abort the script. -/
inductive PyExn where
  | osError (msg : String)
  | pipInstallError
  | queryError (msg : String)
  deriving DecidableEq, Repr

/-- Observable events of a run: process invocations, `print` calls (data-carrying
pandas renderings kept abstract, tagged with the dataframe they render), the
query submission and the matplotlib calls. -/
inductive Event where
  | runProc (args : List String)
  | print (s : String)
  | printRetrieved (n : Nat)
  | printColumns (cols : List String)
  | printHead (df : DataFrame)
  | printInfo (df : DataFrame)
  | printDescribe (df : DataFrame)
  | printStationCount (df : DataFrame)
  | printTopStations (df : DataFrame)
  | submitQuery (sql : String)
  | subplots (rows cols : Nat)
  | hist (r c : Nat) (col : String)
  | figure
  | barChart (col : String)
  | showFig
  deriving DecidableEq, Repr

/-- How the run terminates: falls off the end, or an exception propagates. -/
inductive Result where
  | normal
  | exn (e : PyExn)
  deriving DecidableEq, Repr

/-- The external world an execution encounters: whether `import pandas`
succeeds, whether the pip install (attempted only when it does not) succeeds,
the outcome of the credential-helper subprocess, and the outcome of the query. -/
structure Env where
  pandasAvailable : Bool
  pipOk : Bool
  helper : SubprocOutcome
  queryResult : Except String DataFrame
  deriving Repr

/-- Arguments of the credential-helper invocation (line 35 of the script). -/
def helperCmd : List String := ["coder", "external-auth", "access-token", "gcp"]

/-- Arguments of the `pip install` fallback (line 16); `sys.executable` is
modelled by the literal `"python"`. -/
def pipCmd : List String :=
  ["python", "-m", "pip", "install", "--break-system-packages", "pandas",
   "matplotlib", "seaborn", "google-cloud-bigquery", "db-dtypes", "pyarrow"]

/-- The fixed SQL string (lines 54-58), exactly as the triple-quoted literal. -/
def query : String :=
  "\n    SELECT * \n    FROM `bigquery-public-data.samples.gsod` \n    LIMIT 500\n    "

/-- The import block (lines 13-16): when `pandas` is importable nothing happens;
otherwise `subprocess.check_call` runs pip, and a failing install raises an
uncaught `CalledProcessError`.  A successful install is assumed to make the
subsequent `import pandas` (line 19) succeed. -/
def importEvents (env : Env) : List Event × Option PyExn :=
  if env.pandasAvailable then ([], none)
  else if env.pipOk then ([Event.runProc pipCmd], none)
  else ([Event.runProc pipCmd], some PyExn.pipInstallError)

/-- The Python method strip() with no argument: remove leading and trailing
whitespace characters. -/
def pyStrip (s : String) : String :=
  String.mk (((s.data.dropWhile Char.isWhitespace).reverse.dropWhile
    Char.isWhitespace).reverse)

/-- Lines 32-43: run the helper; on exit 0 return the stripped stdout, on
`CalledProcessError` print the error and return `None`; any other exception
(e.g. the `coder` executable missing) is not caught and propagates. -/
def get_access_token (o : SubprocOutcome) :
    List Event × Except PyExn (Option String) :=
  match o with
  | SubprocOutcome.success out =>
      ([Event.runProc helperCmd], Except.ok (some (pyStrip out)))
  | SubprocOutcome.calledProcessError msg =>
      ([Event.runProc helperCmd, Event.print ("Error: " ++ msg)], Except.ok none)
  | SubprocOutcome.osError msg =>
      ([Event.runProc helperCmd], Except.error (PyExn.osError msg))

/-- The value `get_access_token` hands to the guard (ignoring events/exceptions). -/
def tokenResult (o : SubprocOutcome) : Except PyExn (Option String) :=
  (get_access_token o).2

/-- Python truthiness of the `access_token` value at line 47: `None` and the
empty string are falsy, every other string is truthy. -/
def truthy : Option String → Bool
  | none => false
  | some s => !s.isEmpty

/-- The summary block (lines 62-75), in source order. -/
def summaryEvents (df : DataFrame) : List Event :=
  [Event.printRetrieved df.nrows,
   Event.printColumns df.columns,
   Event.print "\n📊 First 5 rows:",
   Event.printHead df,
   Event.print "\n📈 Dataset info:",
   Event.printInfo df,
   Event.print "\n🔢 Statistical summary:",
   Event.printDescribe df]

/-- The four guarded histograms of the 2x2 grid (lines 82-111). -/
def histEvents (df : DataFrame) : List Event :=
  (if df.columns.contains "mean_temp" then [Event.hist 0 0 "mean_temp"] else [])
  ++ (if df.columns.contains "total_precipitation" then [Event.hist 0 1 "total_precipitation"] else [])
  ++ (if df.columns.contains "mean_wind_speed" then [Event.hist 1 0 "mean_wind_speed"] else [])
  ++ (if df.columns.contains "mean_visibility" then [Event.hist 1 1 "mean_visibility"] else [])

/-- The figure block (lines 78-114): `plt.subplots(2, 2)` unconditionally, the
guarded histograms, then `plt.show()` unconditionally. -/
def gridEvents (df : DataFrame) : List Event :=
  [Event.subplots 2 2] ++ histEvents df ++ [Event.showFig]

/-- The station block (lines 117-133), entirely guarded on the presence of the
`station_number` column. -/
def stationEvents (df : DataFrame) : List Event :=
  if df.columns.contains "station_number" then
    [Event.figure, Event.barChart "station_number", Event.showFig,
     Event.printStationCount df, Event.print "🏆 Top 10 stations:",
     Event.printTopStations df]
  else []

/-- Everything the script does with the materialized dataframe (lines 62-135). -/
def analysisEvents (df : DataFrame) : List Event :=
  summaryEvents df ++ gridEvents df ++ stationEvents df
  ++ [Event.print "\n✅ Weather data analysis complete!"]

/-- The whole script (lines 13-138): import block, token acquisition, the
truthiness guard, client construction, the single query, and — when the query
materializes — summary, charts and the completion message; the falsy branch
prints only the failure message (line 138). -/
def runMain (env : Env) : List Event × Result :=
  match importEvents env with
  | (ev0, some e) => (ev0, Result.exn e)
  | (ev0, none) =>
    match get_access_token env.helper with
    | (ev1, Except.error e) => (ev0 ++ ev1, Result.exn e)
    | (ev1, Except.ok tok) =>
      if truthy tok then
        let pre := ev0 ++ ev1 ++
          [Event.print "✅ Access token obtained",
           Event.print "✅ BigQuery client ready",
           Event.print "🔍 Executing BigQuery query...",
           Event.submitQuery query]
        match env.queryResult with
        | Except.error m => (pre, Result.exn (PyExn.queryError m))
        | Except.ok df => (pre ++ analysisEvents df, Result.normal)
      else
        (ev0 ++ ev1 ++ [Event.print "❌ Failed to get access token"], Result.normal)

/-- Is an event a chart rendering (a histogram or a bar chart)? -/
def isChart : Event → Bool
  | Event.hist _ _ _ => true
  | Event.barChart _ => true
  | _ => false

/-- Is an event the submission of a query? -/
def isSubmit : Event → Bool
  | Event.submitQuery _ => true
  | _ => false

/-- Is an event the invocation of the credential helper? -/
def isHelperCall : Event → Bool
  | Event.runProc args => args == helperCmd
  | _ => false

/-- Is an event a `print` of a plain string? -/
def isPrint : Event → Bool
  | Event.print _ => true
  | _ => false

/-- A dataframe with none of the five plotted columns, for witnesses. -/
def dfEmpty : DataFrame := { columns := [], nrows := 0 }

/-- A dataframe shaped like a GSOD sample, for witnesses. -/
def dfGsod : DataFrame :=
  { columns := ["station_number", "wban_number", "year", "mean_temp",
                "mean_wind_speed", "mean_visibility", "total_precipitation"],
    nrows := 500 }

/-- An environment whose helper invocation exits non-zero. -/
def envFail : Env :=
  { pandasAvailable := true, pipOk := true,
    helper := SubprocOutcome.calledProcessError "exit status 1",
    queryResult := Except.ok dfGsod }

/-- An environment whose helper succeeds with a trailing newline on stdout. -/
def envOk : Env :=
  { pandasAvailable := true, pipOk := true,
    helper := SubprocOutcome.success "ya29.token\n",
    queryResult := Except.ok dfGsod }

/-- An environment where the helper succeeds but the query returns a table
with none of the plotted columns. -/
def envNoCols : Env :=
  { pandasAvailable := true, pipOk := true,
    helper := SubprocOutcome.success "tok",
    queryResult := Except.ok dfEmpty }

/-- An environment where the helper prints only whitespace. -/
def envBlank : Env :=
  { pandasAvailable := true, pipOk := true,
    helper := SubprocOutcome.success "  \n",
    queryResult := Except.ok dfGsod }

/-- An environment where the `coder` executable cannot be launched. -/
def envNoExe : Env :=
  { pandasAvailable := true, pipOk := true,
    helper := SubprocOutcome.osError "No such file or directory",
    queryResult := Except.ok dfGsod }

/-- Like `envOk` but `pandas` is not importable, so the pip fallback runs. -/
def envNoPandas : Env :=
  { pandasAvailable := false, pipOk := true,
    helper := SubprocOutcome.success "ya29.token\n",
    queryResult := Except.ok dfGsod }

/-- C1.  If the external credential-helper invocation fails (the subprocess
exits with non-zero status), the script prints the error message,
`get_access_token` returns `None`, and all subsequent work is skipped: the
whole trace after the import block is the helper invocation, the error print
and the failure message, so no query is submitted and no summarization or
plotting occurs. -/
theorem helper_failure_skips_work (env : Env) (msg : String)
    (himp : env.pandasAvailable || env.pipOk = true)
    (hh : env.helper = SubprocOutcome.calledProcessError msg) :
    tokenResult env.helper = Except.ok none ∧
    runMain env = ((importEvents env).1
      ++ [Event.runProc helperCmd, Event.print ("Error: " ++ msg),
          Event.print "❌ Failed to get access token"], Result.normal) := by
  obtain ⟨pa, pk, h, q⟩ := env
  simp only [Env.helper] at hh
  subst hh
  cases pa <;> cases pk <;>
    simp_all [runMain, importEvents, get_access_token, tokenResult, truthy]

/-- C1 witness: concrete failing environment. -/
theorem helper_failure_skips_work_witness :
    tokenResult envFail.helper = Except.ok none ∧
    runMain envFail = ((importEvents envFail).1
      ++ [Event.runProc helperCmd, Event.print ("Error: " ++ "exit status 1"),
          Event.print "❌ Failed to get access token"], Result.normal) :=
  helper_failure_skips_work envFail "exit status 1" rfl rfl

/-- C2 counterexample: the raw standard output of the helper ends in a newline, and
`get_access_token` returns the stripped string, not the standard output itself. -/
theorem token_not_raw_stdout :
    tokenResult (SubprocOutcome.success "ya29.token\n")
      = Except.ok (some "ya29.token") ∧
    some "ya29.token" ≠ some "ya29.token\n" := by
  constructor
  · simp only [tokenResult, get_access_token, Except.ok.injEq, Option.some.injEq]
    decide
  · decide

/-- C2 amended: credential acquisition invokes
`coder external-auth access-token gcp`, and on success `get_access_token`
returns the captured standard output stripped of leading and trailing
whitespace as the bearer token. -/
theorem token_is_stripped_stdout (env : Env) (s : String)
    (himp : env.pandasAvailable || env.pipOk = true)
    (hh : env.helper = SubprocOutcome.success s) :
    Event.runProc helperCmd ∈ (runMain env).1 ∧
    tokenResult env.helper = Except.ok (some (pyStrip s)) := by
  obtain ⟨pa, pk, h, q⟩ := env
  simp only [Env.helper] at hh
  subst hh
  constructor
  · cases pa <;> cases pk <;>
      simp_all [runMain, importEvents, get_access_token, truthy] <;>
      rcases q with m | df <;>
      by_cases hs : (pyStrip s).isEmpty <;>
      simp_all [analysisEvents]
  · rfl

/-- C2 witness: concrete successful environment. -/
theorem token_is_stripped_stdout_witness :
    Event.runProc helperCmd ∈ (runMain envOk).1 ∧
    tokenResult envOk.helper = Except.ok (some (pyStrip "ya29.token\n")) :=
  token_is_stripped_stdout envOk "ya29.token\n" rfl rfl

/-- Master lemma: in a run where the import block succeeds, the helper exits 0
with a stdout whose stripped form is non-empty, and the query materializes a
dataframe, the whole trace is the import events, the helper call, the three
status prints, the single query submission and the analysis of `df`. -/
theorem runMain_success (env : Env) (s : String) (df : DataFrame)
    (himp : env.pandasAvailable || env.pipOk = true)
    (hh : env.helper = SubprocOutcome.success s)
    (ht : (pyStrip s).isEmpty = false)
    (hq : env.queryResult = Except.ok df) :
    runMain env = ((importEvents env).1
      ++ [Event.runProc helperCmd,
          Event.print "✅ Access token obtained",
          Event.print "✅ BigQuery client ready",
          Event.print "🔍 Executing BigQuery query...",
          Event.submitQuery query]
      ++ analysisEvents df, Result.normal) := by
  obtain ⟨pa, pk, h, q⟩ := env
  simp only [Env.helper] at hh
  simp only [Env.queryResult] at hq
  subst hh; subst hq
  cases pa <;> cases pk <;>
    simp_all [runMain, importEvents, get_access_token, truthy]

/-- Import-block events are process invocations only; no event of the analysis
phase (prints, query submissions, charts) can occur there. -/
theorem importEvents_all_runProc (env : Env) :
    ∀ e ∈ (importEvents env).1, ∃ args, e = Event.runProc args := by
  obtain ⟨pa, pk, h, q⟩ := env
  cases pa <;> cases pk <;> simp [importEvents]

/-- C3.  Query execution submits exactly one SQL string, namely the fixed
`query` literal (in no run is any other string ever submitted, so the query
depends on no input), and the result is materialized as the dataframe `df`
that the subsequent summary renders. -/
theorem single_fixed_query (env : Env) (s : String) (df : DataFrame)
    (himp : env.pandasAvailable || env.pipOk = true)
    (hh : env.helper = SubprocOutcome.success s)
    (ht : (pyStrip s).isEmpty = false)
    (hq : env.queryResult = Except.ok df) :
    (runMain env).1.filter isSubmit = [Event.submitQuery query] ∧
    (∀ e : Env, ∀ sql, Event.submitQuery sql ∈ (runMain e).1 → sql = query) ∧
    Event.printRetrieved df.nrows ∈ (runMain env).1 := by
  refine ⟨?_, ?_, ?_⟩
  · rw [runMain_success env s df himp hh ht hq]
    obtain ⟨pa, pk, h, q⟩ := env
    cases pa <;> cases pk <;>
      simp [importEvents, analysisEvents, summaryEvents, gridEvents,
        histEvents, stationEvents, isSubmit, List.filter_append,
        apply_ite (List.filter isSubmit)]
  · intro e sql hmem
    obtain ⟨pa, pk, h, q⟩ := e
    cases pa <;> cases pk <;> cases h <;> rcases q with m | d <;>
      simp_all [runMain, importEvents, get_access_token, truthy] <;>
      rename_i s' <;>
      by_cases hs : (pyStrip s').isEmpty <;>
      simp_all [analysisEvents, summaryEvents, gridEvents, histEvents,
        stationEvents]
  · rw [runMain_success env s df himp hh ht hq]
    simp [analysisEvents, summaryEvents]

/-- C3 witness: concrete successful run. -/
theorem single_fixed_query_witness :
    (runMain envOk).1.filter isSubmit = [Event.submitQuery query] ∧
    (∀ e : Env, ∀ sql, Event.submitQuery sql ∈ (runMain e).1 → sql = query) ∧
    Event.printRetrieved dfGsod.nrows ∈ (runMain envOk).1 :=
  single_fixed_query envOk "ya29.token\n" dfGsod rfl rfl (by decide) rfl

/-- C4.  After a successful query the summary prints occur in source order:
the row count (the shape of the table), the column list, the head rows, the dtype
info, and the descriptive statistics. -/
theorem summary_print_order (env : Env) (s : String) (df : DataFrame)
    (himp : env.pandasAvailable || env.pipOk = true)
    (hh : env.helper = SubprocOutcome.success s)
    (ht : (pyStrip s).isEmpty = false)
    (hq : env.queryResult = Except.ok df) :
    List.Sublist
      [Event.printRetrieved df.nrows, Event.printColumns df.columns,
       Event.printHead df, Event.printInfo df, Event.printDescribe df]
      (runMain env).1 := by
  rw [runMain_success env s df himp hh ht hq]
  have h1 : List.Sublist
      [Event.printRetrieved df.nrows, Event.printColumns df.columns,
       Event.printHead df, Event.printInfo df, Event.printDescribe df]
      (summaryEvents df) := by
    unfold summaryEvents
    exact .cons₂ _ (.cons₂ _ (.cons _ (.cons₂ _ (.cons _ (.cons₂ _
      (.cons _ (.cons₂ _ .slnil)))))))
  have h2 : List.Sublist (summaryEvents df) (analysisEvents df) := by
    unfold analysisEvents
    exact (List.sublist_append_left _ _).trans (List.sublist_append_left _ _)
  exact ((h1.trans h2).trans (List.sublist_append_right _ _))

/-- C4 witness: concrete successful run. -/
theorem summary_print_order_witness :
    List.Sublist
      [Event.printRetrieved dfGsod.nrows, Event.printColumns dfGsod.columns,
       Event.printHead dfGsod, Event.printInfo dfGsod,
       Event.printDescribe dfGsod]
      (runMain envOk).1 :=
  summary_print_order envOk "ya29.token\n" dfGsod rfl rfl (by decide) rfl

/-- C10.  Whenever a token is obtained and the query succeeds, the 2x2 figure
is created and then displayed, whatever the columns of the retrieved table
are: `plt.subplots(2, 2)` and the first `plt.show()` are unconditional, and
only the individual histograms between them depend on column presence. -/
theorem grid_shown_unconditionally (env : Env) (s : String) (df : DataFrame)
    (himp : env.pandasAvailable || env.pipOk = true)
    (hh : env.helper = SubprocOutcome.success s)
    (ht : (pyStrip s).isEmpty = false)
    (hq : env.queryResult = Except.ok df) :
    List.Sublist [Event.subplots 2 2, Event.showFig] (runMain env).1 := by
  rw [runMain_success env s df himp hh ht hq]
  have h1 : List.Sublist [Event.subplots 2 2, Event.showFig]
      (gridEvents df) := by
    unfold gridEvents
    exact .cons₂ _ (List.sublist_append_right _ _)
  have h2 : List.Sublist (gridEvents df) (analysisEvents df) := by
    unfold analysisEvents
    exact ((List.sublist_append_right _ _).trans
      (List.sublist_append_left _ _)).trans (List.sublist_append_left _ _)
  exact (h1.trans h2).trans (List.sublist_append_right _ _)

/-- C10 witness: a run whose table has none of the plotted columns still
creates and shows the 2x2 figure. -/
theorem grid_shown_unconditionally_witness :
    List.Sublist [Event.subplots 2 2, Event.showFig] (runMain envNoCols).1 :=
  grid_shown_unconditionally envNoCols "tok" dfEmpty rfl rfl (by decide) rfl

/-- C5.  The charts rendered by a successful run are exactly: one histogram
per histogram column present (`mean_temp` at cell (0,0),
`total_precipitation` at (0,1), `mean_wind_speed` at (1,0),
`mean_visibility` at (1,1)) and one bar chart when `station_number` is
present — so each chart is drawn iff its fixed column is in the table, and at
most five charts are rendered. -/
theorem charts_iff_columns (env : Env) (s : String) (df : DataFrame)
    (himp : env.pandasAvailable || env.pipOk = true)
    (hh : env.helper = SubprocOutcome.success s)
    (ht : (pyStrip s).isEmpty = false)
    (hq : env.queryResult = Except.ok df) :
    (runMain env).1.filter isChart =
      (if df.columns.contains "mean_temp"
        then [Event.hist 0 0 "mean_temp"] else [])
      ++ (if df.columns.contains "total_precipitation"
        then [Event.hist 0 1 "total_precipitation"] else [])
      ++ (if df.columns.contains "mean_wind_speed"
        then [Event.hist 1 0 "mean_wind_speed"] else [])
      ++ (if df.columns.contains "mean_visibility"
        then [Event.hist 1 1 "mean_visibility"] else [])
      ++ (if df.columns.contains "station_number"
        then [Event.barChart "station_number"] else []) ∧
    ((runMain env).1.filter isChart).length ≤ 5 := by
  have hmain : (runMain env).1.filter isChart =
      (if df.columns.contains "mean_temp"
        then [Event.hist 0 0 "mean_temp"] else [])
      ++ (if df.columns.contains "total_precipitation"
        then [Event.hist 0 1 "total_precipitation"] else [])
      ++ (if df.columns.contains "mean_wind_speed"
        then [Event.hist 1 0 "mean_wind_speed"] else [])
      ++ (if df.columns.contains "mean_visibility"
        then [Event.hist 1 1 "mean_visibility"] else [])
      ++ (if df.columns.contains "station_number"
        then [Event.barChart "station_number"] else []) := by
    rw [runMain_success env s df himp hh ht hq]
    obtain ⟨pa, pk, h, q⟩ := env
    cases pa <;> cases pk <;>
      simp [importEvents, analysisEvents, summaryEvents, gridEvents,
        histEvents, stationEvents, isChart, List.filter_append,
        apply_ite (List.filter isChart)]
  refine ⟨hmain, ?_⟩
  rw [hmain]
  split_ifs <;> simp

/-- C5 witness: concrete run over a GSOD-shaped table renders all five. -/
theorem charts_iff_columns_witness :
    (runMain envOk).1.filter isChart =
      (if dfGsod.columns.contains "mean_temp"
        then [Event.hist 0 0 "mean_temp"] else [])
      ++ (if dfGsod.columns.contains "total_precipitation"
        then [Event.hist 0 1 "total_precipitation"] else [])
      ++ (if dfGsod.columns.contains "mean_wind_speed"
        then [Event.hist 1 0 "mean_wind_speed"] else [])
      ++ (if dfGsod.columns.contains "mean_visibility"
        then [Event.hist 1 1 "mean_visibility"] else [])
      ++ (if dfGsod.columns.contains "station_number"
        then [Event.barChart "station_number"] else []) ∧
    ((runMain envOk).1.filter isChart).length ≤ 5 :=
  charts_iff_columns envOk "ya29.token\n" dfGsod rfl rfl (by decide) rfl

/-- The analysis phase never invokes a subprocess. -/
theorem analysis_no_helper_call (df : DataFrame) :
    (analysisEvents df).countP isHelperCall = 0 := by
  simp only [analysisEvents, summaryEvents, gridEvents, histEvents,
    stationEvents, List.countP_append, apply_ite (List.countP isHelperCall)]
  simp [isHelperCall, List.countP_cons]

/-- The analysis phase never submits a query. -/
theorem analysis_no_submit (df : DataFrame) :
    (analysisEvents df).countP isSubmit = 0 := by
  simp only [analysisEvents, summaryEvents, gridEvents, histEvents,
    stationEvents, List.countP_append, apply_ite (List.countP isSubmit)]
  simp [isSubmit, List.countP_cons]

/-- The pip invocation is not the credential-helper invocation. -/
theorem pip_not_helper_call : pipCmd ≠ helperCmd := by
  decide

/-- C7.  In every run the credential helper is invoked at most once and a
query is submitted at most once: no retry, no token refresh, no pagination. -/
theorem no_retry_no_resubmit (env : Env) :
    (runMain env).1.countP isHelperCall ≤ 1 ∧
    (runMain env).1.countP isSubmit ≤ 1 := by
  obtain ⟨pa, pk, h, q⟩ := env
  cases h with
  | success s =>
    rcases q with m | df <;> by_cases hs : (pyStrip s).isEmpty <;>
      cases pa <;> cases pk <;>
      simp [runMain, importEvents, get_access_token, truthy, hs,
        List.countP_append, List.countP_cons, analysis_no_helper_call,
        analysis_no_submit, pip_not_helper_call, isHelperCall, isSubmit]
  | calledProcessError m =>
    cases pa <;> cases pk <;>
      simp [runMain, importEvents, get_access_token, truthy,
        List.countP_append, List.countP_cons, pip_not_helper_call,
        isHelperCall, isSubmit]
  | osError m =>
    cases pa <;> cases pk <;>
      simp [runMain, importEvents, get_access_token, truthy,
        List.countP_append, List.countP_cons, pip_not_helper_call,
        isHelperCall, isSubmit]

/-- C8.  When the helper exits 0 but its stdout strips to nothing,
`get_access_token` returns the empty string, the guard treats it exactly like
a failed acquisition, and the only event after the import block besides the
helper call itself is the failure message: no query, no summary, no plot. -/
theorem blank_stdout_like_failure (env : Env) (s : String)
    (himp : env.pandasAvailable || env.pipOk = true)
    (hh : env.helper = SubprocOutcome.success s)
    (hb : pyStrip s = "") :
    tokenResult env.helper = Except.ok (some "") ∧
    runMain env = ((importEvents env).1
      ++ [Event.runProc helperCmd,
          Event.print "❌ Failed to get access token"], Result.normal) := by
  obtain ⟨pa, pk, h, q⟩ := env
  simp only [Env.helper] at hh
  subst hh
  have hE : "".isEmpty = true := by decide
  cases pa <;> cases pk <;>
    simp_all [runMain, importEvents, get_access_token, tokenResult, truthy]

/-- C8 witness: helper printing only whitespace. -/
theorem blank_stdout_like_failure_witness :
    tokenResult envBlank.helper = Except.ok (some "") ∧
    runMain envBlank = ((importEvents envBlank).1
      ++ [Event.runProc helperCmd,
          Event.print "❌ Failed to get access token"], Result.normal) :=
  blank_stdout_like_failure envBlank "  \n" rfl rfl (by decide)

/-- C9.  When the helper executable cannot be launched, the raised exception
is not `CalledProcessError`, so `get_access_token` does not catch it: the run
terminates abnormally right after the attempted invocation, and nothing is
printed after the import block — neither the error print of the handler nor
the failure message of the guard. -/
theorem launch_failure_propagates (env : Env) (msg : String)
    (himp : env.pandasAvailable || env.pipOk = true)
    (hh : env.helper = SubprocOutcome.osError msg) :
    runMain env = ((importEvents env).1 ++ [Event.runProc helperCmd],
      Result.exn (PyExn.osError msg)) ∧
    (∀ t, Event.print t ∉ (runMain env).1) := by
  obtain ⟨pa, pk, h, q⟩ := env
  simp only [Env.helper] at hh
  subst hh
  cases pa <;> cases pk <;>
    simp_all [runMain, importEvents, get_access_token]

/-- C9 witness: the `coder` executable is missing. -/
theorem launch_failure_propagates_witness :
    runMain envNoExe = ((importEvents envNoExe).1 ++ [Event.runProc helperCmd],
      Result.exn (PyExn.osError "No such file or directory")) ∧
    (∀ t, Event.print t ∉ (runMain envNoExe).1) :=
  launch_failure_propagates envNoExe "No such file or directory" rfl rfl

/-- Constructor tag of an event, forgetting its arguments; the list of tags of
a trace is the control-flow skeleton of the run. -/
def Event.tag : Event → Nat
  | Event.runProc _ => 0
  | Event.print _ => 1
  | Event.printRetrieved _ => 2
  | Event.printColumns _ => 3
  | Event.printHead _ => 4
  | Event.printInfo _ => 5
  | Event.printDescribe _ => 6
  | Event.printStationCount _ => 7
  | Event.printTopStations _ => 8
  | Event.submitQuery _ => 9
  | Event.subplots _ _ => 10
  | Event.hist _ _ _ => 11
  | Event.figure => 12
  | Event.barChart _ => 13
  | Event.showFig => 14

/-- Constructor tag of a termination result. -/
def resultTag : Result → Nat
  | Result.normal => 0
  | Result.exn (PyExn.osError _) => 1
  | Result.exn PyExn.pipInstallError => 2
  | Result.exn (PyExn.queryError _) => 3

/-- All the conditions the script ever branches on: availability of `pandas`
and the pip outcome (import block), which exception class the helper raised
and whether the stripped stdout is truthy (token acquisition), whether the
query materialized, and presence of each of the five plotted columns. -/
structure BranchData where
  pandasAvailable : Bool
  pipOk : Bool
  helperClass : Nat
  tokenTruthy : Bool
  queryOk : Bool
  hasTemp : Bool
  hasPrecip : Bool
  hasWind : Bool
  hasVis : Bool
  hasStation : Bool
  deriving DecidableEq, Repr

/-- The branch conditions an environment induces. -/
def branchData (env : Env) : BranchData where
  pandasAvailable := env.pandasAvailable
  pipOk := env.pipOk
  helperClass :=
    match env.helper with
    | SubprocOutcome.success _ => 0
    | SubprocOutcome.calledProcessError _ => 1
    | SubprocOutcome.osError _ => 2
  tokenTruthy :=
    match env.helper with
    | SubprocOutcome.success s => !(pyStrip s).isEmpty
    | _ => false
  queryOk :=
    match env.queryResult with
    | Except.ok _ => true
    | Except.error _ => false
  hasTemp :=
    match env.queryResult with
    | Except.ok df => df.columns.contains "mean_temp"
    | Except.error _ => false
  hasPrecip :=
    match env.queryResult with
    | Except.ok df => df.columns.contains "total_precipitation"
    | Except.error _ => false
  hasWind :=
    match env.queryResult with
    | Except.ok df => df.columns.contains "mean_wind_speed"
    | Except.error _ => false
  hasVis :=
    match env.queryResult with
    | Except.ok df => df.columns.contains "mean_visibility"
    | Except.error _ => false
  hasStation :=
    match env.queryResult with
    | Except.ok df => df.columns.contains "station_number"
    | Except.error _ => false

/-- The control-flow skeleton of a run, as a function of the branch
conditions alone. -/
def shapeFromBranch (b : BranchData) : List Nat :=
  (if b.pandasAvailable then [] else [0])
  ++ (if b.pandasAvailable || b.pipOk then
    [0]
    ++ (if b.helperClass == 1 then [1] else [])
    ++ (if b.helperClass == 2 then []
      else if b.helperClass == 0 && b.tokenTruthy then
        [1, 1, 1, 9]
        ++ (if b.queryOk then
          [2, 3, 1, 4, 1, 5, 1, 6, 10]
          ++ (if b.hasTemp then [11] else [])
          ++ (if b.hasPrecip then [11] else [])
          ++ (if b.hasWind then [11] else [])
          ++ (if b.hasVis then [11] else [])
          ++ [14]
          ++ (if b.hasStation then [12, 13, 14, 7, 1, 8] else [])
          ++ [1]
        else [])
      else [1])
  else [])

/-- How a run terminates, as a function of the branch conditions alone. -/
def resultTagFromBranch (b : BranchData) : Nat :=
  if !(b.pandasAvailable || b.pipOk) then 2
  else if b.helperClass == 2 then 1
  else if b.helperClass == 0 && b.tokenTruthy && !b.queryOk then 3
  else 0

/-- The control-flow skeleton of every run and termination class are functions of
the branch conditions. -/
theorem runMain_shape (env : Env) :
    (runMain env).1.map Event.tag = shapeFromBranch (branchData env) ∧
    resultTag (runMain env).2 = resultTagFromBranch (branchData env) := by
  obtain ⟨pa, pk, h, q⟩ := env
  cases h with
  | success s =>
    by_cases hs : (pyStrip s).isEmpty <;> rcases q with m | df <;>
      cases pa <;> cases pk <;>
      simp [runMain, importEvents, get_access_token, truthy, hs, branchData,
        shapeFromBranch, resultTagFromBranch, resultTag, Event.tag,
        analysisEvents, summaryEvents, gridEvents, histEvents, stationEvents,
        List.map_append, apply_ite (List.map Event.tag)]
  | calledProcessError m =>
    rcases q with m' | df <;> cases pa <;> cases pk <;>
      simp [runMain, importEvents, get_access_token, truthy, branchData,
        shapeFromBranch, resultTagFromBranch, resultTag, Event.tag]
  | osError m =>
    rcases q with m' | df <;> cases pa <;> cases pk <;>
      simp [runMain, importEvents, get_access_token, truthy, branchData,
        shapeFromBranch, resultTagFromBranch, resultTag, Event.tag]

/-- C6 counterexample: two environments that agree on the helper outcome, the
query result (hence on all five column presences) and the token guard, but
disagree on whether `pandas` is importable, produce different runs — so the
script branches on a condition beyond the column presence checks and the
token-acquisition guard, namely the import-time install fallback of
lines 13-16. -/
theorem extra_branch_on_import :
    envNoPandas.helper = envOk.helper ∧
    envNoPandas.queryResult = envOk.queryResult ∧
    runMain envNoPandas ≠ runMain envOk := by
  refine ⟨rfl, rfl, ?_⟩
  decide

/-- C6 amended: the control flow of the script — which statements run, in which
order, and how the run terminates — is fully determined by the branch
conditions: the five column-presence checks and the token-acquisition
success/failure handling (the try/except class and the truthiness guard),
plus the import-time package-install fallback and the query outcome. -/
theorem flow_determined_by_branch_data (e1 e2 : Env)
    (h : branchData e1 = branchData e2) :
    (runMain e1).1.map Event.tag = (runMain e2).1.map Event.tag ∧
    resultTag (runMain e1).2 = resultTag (runMain e2).2 := by
  obtain ⟨hs1, hr1⟩ := runMain_shape e1
  obtain ⟨hs2, hr2⟩ := runMain_shape e2
  rw [hs1, hs2, hr1, hr2, h]
  exact ⟨rfl, rfl⟩

/-- A second environment with different helper stdout and a different row
count but the same branch conditions as `envOk`. -/
def envOk2 : Env :=
  { pandasAvailable := true, pipOk := true,
    helper := SubprocOutcome.success "  other.token  ",
    queryResult := Except.ok { dfGsod with nrows := 123 } }

/-- C6 amended witness: two concrete environments with equal branch data have
the same control-flow skeleton. -/
theorem flow_determined_by_branch_data_witness :
    branchData envOk2 = branchData envOk ∧
    ((runMain envOk2).1.map Event.tag = (runMain envOk).1.map Event.tag ∧
     resultTag (runMain envOk2).2 = resultTag (runMain envOk).2) :=
  ⟨by decide, flow_determined_by_branch_data envOk2 envOk (by decide)⟩

end Weather
